import Mathlib

/-!
Verification development for the Ayurtrack lookup service (`app.py`).

The service loads two in-memory tables at startup (an outbreak table and a
remedy table) and answers three kinds of HTTP requests by filtering the tables
with string-equality predicates and formatting a response.  This file gives a
shallow embedding of the data model and of the request handlers
`check_outbreak`, `test_check`, `get_outbreak_response` and `get_remedy`,
translated directly from the Python source, and proves properties about them.

Modelling conventions:
* a pandas cell that may be `NaN` is an `Option String` (`none` = missing);
* a JSON object body or a query-string is an association list
  `List (String × String)`; `request.get_json()` returning `None` is `none`;
* Python `str.strip()` is `pyStrip`, `str.lower()` is `pyLower`,
  `str.title()` is `pyTitle` below, `", ".join` is `String.intercalate`;
* `Series.unique()` (first-appearance order) is `pdUnique` below,
  `sorted` is `pySorted` below (ascending code-point lexicographic order);
* the remedy table may lack one of its two columns (`Disease` / `Remedy`);
  `RemedyTable` records this with two flags.  Accessing an absent column in
  pandas raises `KeyError`, which the handler-level `except` turns into the
  generic error response; the embedding returns that response directly at the
  program point where the access would raise.
* the embedding is total: none of the modelled operations can fail, so the
  outbreak handler's `except` branch (generic 500) is unreachable and the
  embedded `get_outbreak_response` always carries status 200.
-/

/-- Python `str.lower()`: lower-case every character (modelled with
`Char.toLower`, which covers the ASCII letters the datasets use). -/
def pyLower (s : String) : String :=
  ⟨s.data.map Char.toLower⟩

/-- Python `str.strip()`: drop leading and trailing whitespace characters. -/
def pyStrip (s : String) : String :=
  ⟨((s.data.dropWhile Char.isWhitespace).reverse.dropWhile Char.isWhitespace).reverse⟩

/-- Code-point lexicographic comparison of character lists, as Python uses
when sorting strings. -/
def lexLe : List Char → List Char → Bool
  | [], _ => true
  | _ :: _, [] => false
  | a :: as, b :: bs => if a = b then lexLe as bs else decide (a < b)

/-- Python `a <= b` on strings: code-point lexicographic order. -/
def strLe (a b : String) : Bool :=
  lexLe a.data b.data

/-- Insert into a `strLe`-sorted list, keeping it sorted. -/
def insertSorted (x : String) : List String → List String
  | [] => [x]
  | y :: ys => if strLe x y then x :: y :: ys else y :: insertSorted x ys

/-- Python `sorted` on a list of strings: ascending code-point lexicographic
order.  (The program only sorts already-deduplicated lists, whose elements
are pairwise distinct, so any comparison sort yields the same list.) -/
def pySorted : List String → List String
  | [] => []
  | x :: xs => insertSorted x (pySorted xs)

/-- Python `str.title()`: each alphabetic character that follows a
non-alphabetic character (or starts the string) is upper-cased, every other
alphabetic character is lower-cased, non-alphabetic characters are kept. -/
def pyTitleGo : List Char → Bool → List Char
  | [], _ => []
  | c :: rest, prevCased =>
    let cased := c.isAlpha
    let c' := if cased then (if prevCased then c.toLower else c.toUpper) else c
    c' :: pyTitleGo rest cased

/-- Python `str.title()` on a `String`. -/
def pyTitle (s : String) : String :=
  ⟨pyTitleGo s.data false⟩

/-- `pandas.Series.unique`: deduplicate keeping the first occurrence of each
element, preserving first-appearance order.  `seen` accumulates the elements
already emitted. -/
def pdUniqueGo (seen : List String) : List String → List String
  | [] => []
  | x :: xs => if x ∈ seen then pdUniqueGo seen xs else x :: pdUniqueGo (x :: seen) xs

/-- Deduplication in first-appearance order (`Series.unique().tolist()`). -/
def pdUnique (xs : List String) : List String :=
  pdUniqueGo [] xs

/-- Python dict/`request.args` lookup `d.get(k, "")`. -/
def dictGet (d : List (String × String)) (k : String) : String :=
  match d.find? (fun p => p.1 == k) with
  | some p => p.2
  | none => ""

/-- One row of the outbreak table `data.csv`.  The two key columns and the
disease column may be `NaN`; the two date columns were parsed with
`pd.to_datetime(..., errors=coerce)`, so an unparseable date is `none`. -/
structure OutbreakRecord where
  stateName : Option String
  districtName : Option String
  disease : Option String
  startDate : Option Nat
  reportingDate : Option Nat
deriving DecidableEq, Repr

/-- One row of the remedy table `remedies.csv`. -/
structure RemedyRecord where
  disease : Option String
  remedy : Option String
deriving DecidableEq, Repr

/-- The loaded remedy table.  `hasDiseaseCol` / `hasRemedyCol` record whether
the `Disease` / `Remedy` columns are present in the loaded CSV (the handler
explicitly checks the former and would hit `KeyError` on the latter). -/
structure RemedyTable where
  hasDiseaseCol : Bool
  hasRemedyCol : Bool
  rows : List RemedyRecord
deriving DecidableEq, Repr

/-- A plain-text Flask response together with its HTTP status code. -/
structure TextResponse where
  text : String
  status : Nat
deriving DecidableEq, Repr

/-- The JSON body of a `/get-remedy` response: either `{"error": msg}` or
`{"disease": d, "remedies": [...]}`. -/
inductive RemedyBody where
  | errorBody (message : String)
  | remedyBody (disease : String) (remedies : List String)
deriving DecidableEq, Repr

/-- Whether a remedy response body is the structured `disease` + `remedies`
shape (as opposed to a bare `{"error": ...}` object). -/
def RemedyBody.hasDiseaseAndRemedies : RemedyBody → Bool
  | .errorBody _ => false
  | .remedyBody _ _ => true

/-- A JSON Flask response together with its HTTP status code. -/
structure RemedyResponse where
  body : RemedyBody
  status : Nat
deriving DecidableEq, Repr

/-- The row predicate of the outbreak filter:
`(data[...State...].str.lower() == state) & (data[...District...].str.lower() == district)`.
`.str.lower()` maps `NaN` to `NaN`, and `NaN == x` is `False`, so a row with a
missing key never matches.  The stored values are lower-cased but NOT
trimmed; the query values arrive already trimmed and lower-cased. -/
def rowMatchesOutbreak (r : OutbreakRecord) (state district : String) : Bool :=
  (match r.stateName with
   | some v => pyLower v == state
   | none => false) &&
  (match r.districtName with
   | some v => pyLower v == district
   | none => false)

/-- `data[(...) & (...)]`: the rows matching both keys. -/
def outbreakFilter (tbl : List OutbreakRecord) (state district : String) :
    List OutbreakRecord :=
  tbl.filter (fun r => rowMatchesOutbreak r state district)

/-- `filtered["Disease/Illness"].dropna().str.strip().str.title().unique()`. -/
def uniqueDiseases (filtered : List OutbreakRecord) : List String :=
  pdUnique ((filtered.filterMap (fun r => r.disease)).map (fun s => pyTitle (pyStrip s)))

/-- `sorted(filtered[...].dropna().str.strip().str.title().unique())`
(Python `sorted` on strings is lexicographic on code points). -/
def sortedUniqueDiseases (filtered : List OutbreakRecord) : List String :=
  pySorted (uniqueDiseases filtered)

/-- The alert message (f-string at lines 89-92 of `app.py`). -/
def alertMessage (district state outbreakStr : String) : String :=
  "⚠️ Alert! Your area " ++ pyTitle district ++ " in " ++ pyTitle state ++
    " has reported disease outbreak(s): " ++ outbreakStr ++ "."

/-- The reassuring message (f-string at lines 94-97 of `app.py`). -/
def goodNewsMessage (district state : String) : String :=
  "✅ Good news! Your area " ++ pyTitle district ++ ", " ++ pyTitle state ++
    " currently shows no reported disease outbreaks in our records. " ++
    "However, if you\x27re experiencing symptoms, you can check our remedies section."

/-- `get_outbreak_response(state, district)`: filter the outbreak table and
format the alert or reassuring message.  `state` and `district` are the
already-normalized query values.  The `except` branch is unreachable in the
embedding (no modelled operation can raise), so the status is always 200. -/
def get_outbreak_response (tbl : List OutbreakRecord) (state district : String) :
    TextResponse :=
  let filtered := outbreakFilter tbl state district
  if filtered.isEmpty then
    ⟨goodNewsMessage district state, 200⟩
  else
    let uds := sortedUniqueDiseases filtered
    let outbreakStr := if uds.isEmpty then "unspecified diseases" else String.intercalate ", " uds
    ⟨alertMessage district state outbreakStr, 200⟩

/-- `POST /check-outbreak`.  `content` is the parsed JSON body (`none` when
`request.get_json()` returned `None`).  Python `if not content` is true both
for `None` and for the empty object `{}`. -/
def check_outbreak (tbl : List OutbreakRecord)
    (content : Option (List (String × String))) : TextResponse :=
  match content with
  | none => ⟨"Error: No JSON data received.", 400⟩
  | some c =>
    if c.isEmpty then ⟨"Error: No JSON data received.", 400⟩
    else
      let state := pyLower (pyStrip (dictGet c "state"))
      let district := pyLower (pyStrip (dictGet c "district"))
      if state = "" || district = "" then
        ⟨"Error: Both \x27state\x27 and \x27district\x27 are required.", 400⟩
      else get_outbreak_response tbl state district

/-- `GET /test-check`: same lookup driven by query parameters. -/
def test_check (tbl : List OutbreakRecord) (args : List (String × String)) :
    TextResponse :=
  let state := pyLower (pyStrip (dictGet args "state"))
  let district := pyLower (pyStrip (dictGet args "district"))
  if state = "" || district = "" then
    ⟨"Error: Both \x27state\x27 and \x27district\x27 query parameters are required.", 400⟩
  else get_outbreak_response tbl state district

/-- The row predicate of the remedy filter:
`remedy_data["Disease"].str.lower().fillna(empty) == disease_input`.
A `NaN` disease becomes the empty string before the comparison. -/
def rowMatchesRemedy (r : RemedyRecord) (diseaseInput : String) : Bool :=
  ((r.disease.map pyLower).getD "") == diseaseInput

/-- `remedy_data[remedy_data["Disease"].str.lower().fillna(empty) == disease_input]`. -/
def matchedRows (tbl : RemedyTable) (diseaseInput : String) : List RemedyRecord :=
  tbl.rows.filter (fun r => rowMatchesRemedy r diseaseInput)

/-- `remedies["Remedy"].dropna()`: the non-null remedy texts of the matching
rows, in table order. -/
def remedyTexts (tbl : RemedyTable) (diseaseInput : String) : List String :=
  (matchedRows tbl diseaseInput).filterMap (fun r => r.remedy)

/-- The body of `get_remedy` after input validation (lines 119-153 of
`app.py`), for an already-normalized non-empty `diseaseInput`. -/
def remedyCore (tbl : RemedyTable) (diseaseInput : String) : RemedyResponse :=
  if !tbl.hasDiseaseCol then
    ⟨.remedyBody (pyTitle diseaseInput)
      ["⚠️ Error: Remedy data format issue (Missing \x27Disease\x27 column)."], 500⟩
  else if !(matchedRows tbl diseaseInput).isEmpty then
    if !tbl.hasRemedyCol then
      -- `remedies["Remedy"]` raises `KeyError`; the handler's `except` clause
      -- catches it and returns the generic error response.
      ⟨.remedyBody (pyTitle diseaseInput)
        ["⚠️ An error occurred while searching for remedies. Please try again later."], 500⟩
    else
      let remedyList := pdUnique (remedyTexts tbl diseaseInput)
      if remedyList.isEmpty then
        ⟨.remedyBody (pyTitle diseaseInput)
          ["⚠️ No specific remedies listed for this disease, although it was found."], 200⟩
      else
        ⟨.remedyBody (pyTitle diseaseInput) remedyList, 200⟩
  else
    ⟨.remedyBody (pyTitle diseaseInput)
      ["✅ No Ayurvedic remedy found for this specific disease in our database."], 200⟩

/-- A request to `/get-remedy`: a POST with an optional JSON body, or a GET
with query parameters. -/
inductive RemedyRequest where
  | post (content : Option (List (String × String)))
  | get (args : List (String × String))
deriving DecidableEq, Repr

/-- `POST|GET /get-remedy` (lines 105-153 of `app.py`). -/
def get_remedy (tbl : RemedyTable) (req : RemedyRequest) : RemedyResponse :=
  match req with
  | .post none => ⟨.errorBody "No JSON data received.", 400⟩
  | .post (some c) =>
    if c.isEmpty then ⟨.errorBody "No JSON data received.", 400⟩
    else
      let diseaseInput := pyLower (pyStrip (dictGet c "disease"))
      if diseaseInput = "" then ⟨.errorBody "Disease parameter is required.", 400⟩
      else remedyCore tbl diseaseInput
  | .get args =>
    let diseaseInput := pyLower (pyStrip (dictGet args "disease"))
    if diseaseInput = "" then ⟨.errorBody "Disease parameter is required.", 400⟩
    else remedyCore tbl diseaseInput

/-- The process-wide state: the two tables loaded at startup.  No handler
ever reassigns `data` or `remedy_data`, and every pandas filter allocates a
fresh frame, so a handler invocation leaves the state unchanged. -/
structure AppState where
  data : List OutbreakRecord
  remedy_data : RemedyTable
deriving DecidableEq, Repr

/-- An inbound request to one of the three lookup routes. -/
inductive AppRequest where
  | outbreakPost (content : Option (List (String × String)))
  | outbreakGet (args : List (String × String))
  | remedy (r : RemedyRequest)
deriving DecidableEq, Repr

/-- A response from one of the three lookup routes. -/
inductive AppResponse where
  | text (t : TextResponse)
  | json (j : RemedyResponse)
deriving DecidableEq, Repr

/-- Dispatch one request against the process state, returning the response
and the state as it stands after the handler ran. -/
def handle (st : AppState) (req : AppRequest) : AppResponse × AppState :=
  match req with
  | .outbreakPost c => (.text (check_outbreak st.data c), st)
  | .outbreakGet a => (.text (test_check st.data a), st)
  | .remedy r => (.json (get_remedy st.remedy_data r), st)

/-! ### Helper lemmas about the embedded primitives -/

theorem pdUniqueGo_sublist (xs : List String) :
    ∀ seen, List.Sublist (pdUniqueGo seen xs) xs := by
  induction xs with
  | nil => intro seen; simp [pdUniqueGo]
  | cons x xs ih =>
    intro seen
    by_cases hx : x ∈ seen
    · simpa [pdUniqueGo, hx] using (ih seen).cons x
    · simpa [pdUniqueGo, hx] using (ih (x :: seen)).cons₂ x

theorem mem_pdUniqueGo (a : String) (xs : List String) :
    ∀ seen, a ∈ pdUniqueGo seen xs ↔ a ∈ xs ∧ a ∉ seen := by
  induction xs with
  | nil => intro seen; simp [pdUniqueGo]
  | cons x xs ih =>
    intro seen
    by_cases hx : x ∈ seen
    · rw [pdUniqueGo, if_pos hx, ih seen]
      constructor
      · rintro ⟨ha, hs⟩
        exact ⟨List.mem_cons_of_mem x ha, hs⟩
      · rintro ⟨ha, hs⟩
        rcases List.mem_cons.mp ha with rfl | ha
        · exact absurd hx hs
        · exact ⟨ha, hs⟩
    · rw [pdUniqueGo, if_neg hx]
      constructor
      · intro h
        rcases List.mem_cons.mp h with rfl | h
        · exact ⟨List.mem_cons_self a xs, hx⟩
        · rcases (ih (x :: seen)).mp h with ⟨ha, hs⟩
          refine ⟨List.mem_cons_of_mem x ha, fun hc => hs (List.mem_cons_of_mem x hc)⟩
      · rintro ⟨ha, hs⟩
        rcases List.mem_cons.mp ha with rfl | ha
        · exact List.mem_cons_self a _
        · by_cases hax : a = x
          · subst hax; exact List.mem_cons_self a _
          · exact List.mem_cons_of_mem x
              ((ih (x :: seen)).mpr ⟨ha, by simp [hax, hs]⟩)

theorem pdUniqueGo_nodup (xs : List String) :
    ∀ seen, (pdUniqueGo seen xs).Nodup := by
  induction xs with
  | nil => intro seen; simp [pdUniqueGo]
  | cons x xs ih =>
    intro seen
    by_cases hx : x ∈ seen
    · simpa [pdUniqueGo, hx] using ih seen
    · rw [pdUniqueGo, if_neg hx]
      refine List.nodup_cons.mpr ⟨fun hc => ?_, ih (x :: seen)⟩
      exact ((mem_pdUniqueGo x xs (x :: seen)).mp hc).2 (List.mem_cons_self x seen)

theorem pdUnique_sublist (xs : List String) : List.Sublist (pdUnique xs) xs :=
  pdUniqueGo_sublist xs []

theorem mem_pdUnique (a : String) (xs : List String) : a ∈ pdUnique xs ↔ a ∈ xs := by
  rw [pdUnique, mem_pdUniqueGo]
  simp

theorem pdUnique_nodup (xs : List String) : (pdUnique xs).Nodup :=
  pdUniqueGo_nodup xs []

theorem pdUnique_eq_nil (xs : List String) : pdUnique xs = [] ↔ xs = [] := by
  constructor
  · intro h
    cases xs with
    | nil => rfl
    | cons x xs =>
      exfalso
      have hx : x ∈ pdUnique (x :: xs) := (mem_pdUnique x _).mpr (List.mem_cons_self x xs)
      simp [h] at hx
  · rintro rfl; rfl

theorem pdUnique_length (xs : List String) :
    (pdUnique xs).length = xs.toFinset.card := by
  have hfin : (pdUnique xs).toFinset = xs.toFinset := by
    ext a
    simp [List.mem_toFinset, mem_pdUnique]
  rw [← hfin, List.toFinset_card_of_nodup (pdUnique_nodup xs)]

theorem insertSorted_ne_nil (x : String) (xs : List String) :
    insertSorted x xs ≠ [] := by
  cases xs with
  | nil => simp [insertSorted]
  | cons y ys =>
    rw [insertSorted]
    by_cases h : strLe x y = true <;> simp [h]

theorem pySorted_eq_nil (xs : List String) : pySorted xs = [] ↔ xs = [] := by
  cases xs with
  | nil => simp [pySorted]
  | cons x xs =>
    simp only [pySorted]
    exact ⟨fun h => absurd h (insertSorted_ne_nil x (pySorted xs)), fun h => by cases h⟩

theorem goodNews_data_head (district state : String) :
    (goodNewsMessage district state).data.head? = some '✅' := by
  have h : ("✅ Good news! Your area " : String).data.head? = some '✅' := by decide
  simp [goodNewsMessage, String.data_append, List.head?_append, h]

theorem alert_data_head (district state outbreakStr : String) :
    (alertMessage district state outbreakStr).data.head? = some '⚠' := by
  have h : ("⚠️ Alert! Your area " : String).data.head? = some '⚠' := by decide
  simp [alertMessage, String.data_append, List.head?_append, h]

theorem goodNews_ne_alert (d s d' s' o : String) :
    goodNewsMessage d s ≠ alertMessage d' s' o := by
  intro h
  have h2 : (goodNewsMessage d s).data.head? = (alertMessage d' s' o).data.head? := by rw [h]
  rw [goodNews_data_head, alert_data_head] at h2
  exact absurd (Option.some.inj h2) (by decide)

theorem outbreakFilter_drop_null (tbl : List OutbreakRecord) (state district : String) :
    outbreakFilter (tbl.filter (fun r => r.stateName.isSome && r.districtName.isSome))
      state district = outbreakFilter tbl state district := by
  rw [outbreakFilter, outbreakFilter, List.filter_filter]
  apply List.filter_congr
  intro r _
  rcases hs : r.stateName with _ | v <;> rcases hd : r.districtName with _ | w <;>
    simp [rowMatchesOutbreak, hs, hd]

theorem matchedRows_drop_null (tbl : RemedyTable) (di : String) (hdi : di ≠ "") :
    matchedRows ⟨tbl.hasDiseaseCol, tbl.hasRemedyCol,
        tbl.rows.filter (fun r => r.disease.isSome)⟩ di
      = matchedRows tbl di := by
  rw [matchedRows, matchedRows, List.filter_filter]
  apply List.filter_congr
  intro r _
  rcases h : r.disease with _ | v
  · have hbeq : ("" == di) = false := beq_eq_false_iff_ne.mpr (Ne.symm hdi)
    simp [rowMatchesRemedy, h, hbeq]
  · simp [rowMatchesRemedy, h]

theorem remedyCore_drop_null (tbl : RemedyTable) (di : String) (hdi : di ≠ "") :
    remedyCore ⟨tbl.hasDiseaseCol, tbl.hasRemedyCol,
        tbl.rows.filter (fun r => r.disease.isSome)⟩ di
      = remedyCore tbl di := by
  have hm := matchedRows_drop_null tbl di hdi
  simp only [remedyCore, remedyTexts, hm]

theorem get_remedy_drop_null (tbl : RemedyTable) (req : RemedyRequest) :
    get_remedy ⟨tbl.hasDiseaseCol, tbl.hasRemedyCol,
        tbl.rows.filter (fun r => r.disease.isSome)⟩ req
      = get_remedy tbl req := by
  cases req with
  | post c =>
    cases c with
    | none => rfl
    | some d =>
      simp only [get_remedy]
      split
      · rfl
      · split
        · rfl
        · next h => exact remedyCore_drop_null tbl _ h
  | get args =>
    simp only [get_remedy]
    split
    · rfl
    · next h => exact remedyCore_drop_null tbl _ h

/-! ### The claims -/

/-- Data used by the counterexample to claim C1: an outbreak row whose stored
state value carries a leading space. -/
def c1Row : OutbreakRecord :=
  ⟨some " kerala", some "wayanad", some "dengue", none, none⟩

set_option maxRecDepth 4000 in
/-- Claim C1 is false as stated: the query-time comparison lower-cases both
sides but trims only the query side.  A stored state value " kerala" and the
query "Kerala" are equal after trimming and lower-casing both sides, yet the
row does not match, and the outbreak lookup answers with the no-outbreak
message instead of the alert. -/
theorem c1_counterexample :
    pyLower (pyStrip " kerala") = pyLower (pyStrip "Kerala")
    ∧ rowMatchesOutbreak c1Row (pyLower (pyStrip "Kerala")) (pyLower (pyStrip "Wayanad")) = false
    ∧ check_outbreak [c1Row] (some [("state", "Kerala"), ("district", "Wayanad")])
        = ⟨goodNewsMessage "wayanad" "kerala", 200⟩ := by
  refine ⟨by decide, by decide, by decide⟩

/-- Claim C1 (amended): the query value is trimmed and lower-cased, while the
stored value is only lower-cased; a stored value matches a query exactly when
`lower(stored) = lower(trim(query))`.  Consequently, for stored values that
carry no surrounding whitespace the comparison coincides with the claimed
normalize-both-sides equality, on both the outbreak filter (state and
district) and the remedy filter (disease). -/
theorem c1_amended (s d ds q1 q2 q3 : String) (dis rem : Option String)
    (t1 t2 : Option Nat)
    (hs : pyStrip s = s) (hd : pyStrip d = d) (hds : pyStrip ds = ds) :
    (rowMatchesOutbreak ⟨some s, some d, dis, t1, t2⟩
        (pyLower (pyStrip q1)) (pyLower (pyStrip q2))
      = (pyLower (pyStrip s) == pyLower (pyStrip q1)
          && pyLower (pyStrip d) == pyLower (pyStrip q2)))
    ∧ (rowMatchesRemedy ⟨some ds, rem⟩ (pyLower (pyStrip q3))
      = (pyLower (pyStrip ds) == pyLower (pyStrip q3))) := by
  constructor
  · simp only [rowMatchesOutbreak, hs, hd]
  · simp [rowMatchesRemedy, hds]

/-- Witness for `c1_amended` at concrete whitespace-free stored values. -/
theorem c1_amended_witness :
    rowMatchesOutbreak ⟨some "kerala", some "wayanad", some "dengue", none, none⟩
        (pyLower (pyStrip " Kerala ")) (pyLower (pyStrip "WAYANAD"))
      = (pyLower (pyStrip "kerala") == pyLower (pyStrip " Kerala ")
          && pyLower (pyStrip "wayanad") == pyLower (pyStrip "WAYANAD")) :=
  (c1_amended "kerala" "wayanad" "dengue" " Kerala " "WAYANAD" "x"
    (some "dengue") (some "r") none none (by decide) (by decide) (by decide)).1

/-- Claim C8: when no outbreak row matches the (state, district) query, the
lookup returns the reassuring message naming the district and state (which
ends with the pointer toward the remedies section), and that message is never
equal to any alert message. -/
theorem c8_no_match_good_news (tbl : List OutbreakRecord) (state district : String)
    (h : outbreakFilter tbl state district = []) :
    get_outbreak_response tbl state district = ⟨goodNewsMessage district state, 200⟩
    ∧ ∀ o : String, goodNewsMessage district state ≠ alertMessage district state o := by
  refine ⟨?_, fun o => goodNews_ne_alert district state district state o⟩
  simp [get_outbreak_response, h]

/-- Witness for `c8_no_match_good_news`: empty table, concrete query. -/
theorem c8_witness :
    get_outbreak_response [] "kerala" "wayanad"
      = ⟨goodNewsMessage "wayanad" "kerala", 200⟩ :=
  (c8_no_match_good_news [] "kerala" "wayanad" (by decide)).1

/-- Claim C9: the handlers are deterministic, read-only functions of the
loaded tables and the request: dispatching a request leaves the process state
unchanged, and dispatching the same request again returns the same
response. -/
theorem c9_idempotent_readonly (st : AppState) (req : AppRequest) :
    (handle st req).2 = st
    ∧ (handle (handle st req).2 req).1 = (handle st req).1 := by
  cases req with
  | outbreakPost c => exact ⟨rfl, rfl⟩
  | outbreakGet a => exact ⟨rfl, rfl⟩
  | remedy r => exact ⟨rfl, rfl⟩

/-- Claim C10: a row whose filter-key field is null never matches.  In the
outbreak filter a null state or district makes the row predicate false for
every query; in the remedy filter a null disease is replaced by the empty
string, which never equals the (necessarily non-empty) validated query.
Consequently dropping the null-keyed rows changes no filter result and no
remedy response, and since the embedding is total the null comparison never
raises an error. -/
theorem c10_null_key_rows_excluded :
    (∀ (r : OutbreakRecord) (state district : String),
        r.stateName = none ∨ r.districtName = none →
        rowMatchesOutbreak r state district = false)
    ∧ (∀ (r : RemedyRecord) (q : String), r.disease = none → q ≠ "" →
        rowMatchesRemedy r q = false)
    ∧ (∀ (tbl : List OutbreakRecord) (state district : String),
        outbreakFilter (tbl.filter (fun r => r.stateName.isSome && r.districtName.isSome))
          state district = outbreakFilter tbl state district)
    ∧ (∀ (tbl : RemedyTable) (req : RemedyRequest),
        get_remedy ⟨tbl.hasDiseaseCol, tbl.hasRemedyCol,
            tbl.rows.filter (fun r => r.disease.isSome)⟩ req = get_remedy tbl req) := by
  refine ⟨?_, ?_, outbreakFilter_drop_null, get_remedy_drop_null⟩
  · intro r state district h
    rcases h with h | h <;> simp [rowMatchesOutbreak, h]
  · intro r q h hq
    simp only [rowMatchesRemedy, h, Option.map_none, Option.getD_none]
    exact beq_eq_false_iff_ne.mpr (Ne.symm hq)

/-- Data for the counterexample to claim C2: a remedy table whose `Remedy`
(remedy-text) column is absent, with a row matching the query "dengue". -/
def c2Table : RemedyTable := ⟨true, false, [⟨some "dengue", none⟩]⟩

/-- Claim C2 is false as stated: when the remedy table is missing the
remedy-text (`Remedy`) column and a row matches, the handler returns the
generic catch-all 500 message, not a message describing the missing-column
data-format condition.  (The specific missing-column 500 is tied to the
`Disease` column instead.) -/
theorem c2_counterexample :
    get_remedy c2Table (.get [("disease", "Dengue")])
      = ⟨.remedyBody "Dengue"
          ["⚠️ An error occurred while searching for remedies. Please try again later."], 500⟩
    ∧ "⚠️ An error occurred while searching for remedies. Please try again later."
        ≠ "⚠️ Error: Remedy data format issue (Missing \x27Disease\x27 column)." := by
  refine ⟨by decide, by decide⟩

/-- Claim C2 (amended): the specific missing-column 500 response is produced
when the `Disease` (filter-key) column is absent; an absent `Remedy`
(remedy-text) column is not specifically detected and, when at least one row
matches, yields the generic catch-all 500 instead. -/
theorem c2_amended (tbl : RemedyTable) (di : String) :
    (tbl.hasDiseaseCol = false →
      remedyCore tbl di
        = ⟨.remedyBody (pyTitle di)
            ["⚠️ Error: Remedy data format issue (Missing \x27Disease\x27 column)."], 500⟩)
    ∧ (tbl.hasDiseaseCol = true → tbl.hasRemedyCol = false → matchedRows tbl di ≠ [] →
      remedyCore tbl di
        = ⟨.remedyBody (pyTitle di)
            ["⚠️ An error occurred while searching for remedies. Please try again later."], 500⟩) := by
  constructor
  · intro h
    simp [remedyCore, h]
  · intro h1 h2 h3
    simp [remedyCore, h1, h2, h3]

/-- Witness for `c2_amended`: a table without the `Disease` column gives the
specific missing-column 500, and `c2Table` (without the `Remedy` column, with
a matching row) gives the generic 500. -/
theorem c2_amended_witness :
    remedyCore ⟨false, true, []⟩ "dengue"
      = ⟨.remedyBody (pyTitle "dengue")
          ["⚠️ Error: Remedy data format issue (Missing \x27Disease\x27 column)."], 500⟩
    ∧ remedyCore c2Table "dengue"
      = ⟨.remedyBody (pyTitle "dengue")
          ["⚠️ An error occurred while searching for remedies. Please try again later."], 500⟩ :=
  ⟨(c2_amended ⟨false, true, []⟩ "dengue").1 rfl,
   (c2_amended c2Table "dengue").2 rfl rfl (by decide)⟩

/-- Data for the counterexample to claim C3: a matching outbreak row whose
disease value is blank (whitespace-only) but not null. -/
def c3Row : OutbreakRecord := ⟨some "kerala", some "wayanad", some "   ", none, none⟩

/-- Claim C3 is false as stated: when every matching row has a blank (but
non-null) disease, the substitution to "unspecified diseases" does not
happen; the blank value survives trimming and title-casing as the empty
string, and the alert message lists an empty disease string. -/
theorem c3_counterexample :
    pyStrip "   " = ""
    ∧ get_outbreak_response [c3Row] "kerala" "wayanad"
        = ⟨alertMessage "wayanad" "kerala" "", 200⟩
    ∧ alertMessage "wayanad" "kerala" ""
        ≠ alertMessage "wayanad" "kerala" "unspecified diseases" := by
  refine ⟨by decide, by decide, by decide⟩

/-- Claim C3 (amended): for a query with at least one matching row, the alert
message's disease list is built by trimming, title-casing, deduplicating
(first appearance), sorting ascending and joining the non-null disease values
with ", "; the literal "unspecified diseases" is substituted exactly when the
list is empty, which happens exactly when every matching row's disease is
null (blank non-null values are kept as empty strings). -/
theorem c3_amended (tbl : List OutbreakRecord) (state district : String)
    (h : outbreakFilter tbl state district ≠ []) :
    get_outbreak_response tbl state district
      = ⟨alertMessage district state
          (if (sortedUniqueDiseases (outbreakFilter tbl state district)).isEmpty
           then "unspecified diseases"
           else String.intercalate ", "
             (sortedUniqueDiseases (outbreakFilter tbl state district))), 200⟩
    ∧ (sortedUniqueDiseases (outbreakFilter tbl state district) = []
        ↔ ∀ r ∈ outbreakFilter tbl state district, r.disease = none) := by
  constructor
  · have h' : (outbreakFilter tbl state district).isEmpty = false :=
      List.isEmpty_eq_false.mpr h
    simp [get_outbreak_response, h']
  · rw [sortedUniqueDiseases, pySorted_eq_nil, uniqueDiseases, pdUnique_eq_nil,
      List.map_eq_nil_iff, List.filterMap_eq_nil_iff]

/-- Witness for `c3_amended` at a one-row table. -/
theorem c3_amended_witness :
    get_outbreak_response [⟨some "kerala", some "wayanad", some "dengue", none, none⟩]
        "kerala" "wayanad"
      = ⟨alertMessage "wayanad" "kerala"
          (if (sortedUniqueDiseases (outbreakFilter
                [⟨some "kerala", some "wayanad", some "dengue", none, none⟩]
                "kerala" "wayanad")).isEmpty
           then "unspecified diseases"
           else String.intercalate ", "
             (sortedUniqueDiseases (outbreakFilter
                [⟨some "kerala", some "wayanad", some "dengue", none, none⟩]
                "kerala" "wayanad"))), 200⟩ :=
  (c3_amended [⟨some "kerala", some "wayanad", some "dengue", none, none⟩]
    "kerala" "wayanad" (by decide)).1

/-- Data for the counterexample to claim C4: one matching row (N = 1) with a
null remedy text (M = 0). -/
def c4Table : RemedyTable := ⟨true, true, [⟨some "dengue", none⟩]⟩

/-- Claim C4 is false as stated in the case M = 0: a disease present with one
matching row whose remedy text is null has M = 0 distinct non-null remedy
texts, yet the lookup returns a one-element placeholder list rather than
exactly M = 0 remedy entries. -/
theorem c4_counterexample :
    matchedRows c4Table "dengue" = [⟨some "dengue", none⟩]
    ∧ pdUnique (remedyTexts c4Table "dengue") = []
    ∧ get_remedy c4Table (.get [("disease", "dengue")])
        = ⟨.remedyBody "Dengue"
            ["⚠️ No specific remedies listed for this disease, although it was found."], 200⟩ := by
  refine ⟨by decide, by decide, by decide⟩

/-- Claim C4 (amended): for a disease with at least one distinct non-null
remedy text among the matching rows (M ≥ 1), the lookup returns exactly the
deduplicated list of non-null remedy texts in first-appearance order: the
returned list has no duplicates, is a subsequence of the matched remedy
texts, contains exactly the remedy texts that occur, and its length is the
number M of distinct non-null remedy texts.  (When M = 0 a one-element
placeholder list is returned instead; see claim C6.) -/
theorem c4_amended (tbl : RemedyTable) (di : String)
    (hD : tbl.hasDiseaseCol = true) (hR : tbl.hasRemedyCol = true)
    (hm : pdUnique (remedyTexts tbl di) ≠ []) :
    remedyCore tbl di
      = ⟨.remedyBody (pyTitle di) (pdUnique (remedyTexts tbl di)), 200⟩
    ∧ (pdUnique (remedyTexts tbl di)).Nodup
    ∧ List.Sublist (pdUnique (remedyTexts tbl di)) (remedyTexts tbl di)
    ∧ (∀ a, a ∈ pdUnique (remedyTexts tbl di) ↔ a ∈ remedyTexts tbl di)
    ∧ (pdUnique (remedyTexts tbl di)).length = (remedyTexts tbl di).toFinset.card := by
  refine ⟨?_, pdUnique_nodup _, pdUnique_sublist _,
    fun a => mem_pdUnique a _, pdUnique_length _⟩
  have hmt : matchedRows tbl di ≠ [] := by
    intro hnil
    apply hm
    rw [remedyTexts, hnil]
    rfl
  simp [remedyCore, hD, hR, hmt, hm]

/-- Witness for `c4_amended`: three matching rows, two distinct remedy texts. -/
theorem c4_amended_witness :
    remedyCore ⟨true, true, [⟨some "dengue", some "Papaya leaf extract"⟩,
        ⟨some "dengue", some "Papaya leaf extract"⟩, ⟨some "dengue", some "Giloy juice"⟩]⟩
      "dengue"
      = ⟨.remedyBody (pyTitle "dengue")
          (pdUnique (remedyTexts ⟨true, true, [⟨some "dengue", some "Papaya leaf extract"⟩,
            ⟨some "dengue", some "Papaya leaf extract"⟩, ⟨some "dengue", some "Giloy juice"⟩]⟩
            "dengue")), 200⟩ :=
  (c4_amended ⟨true, true, [⟨some "dengue", some "Papaya leaf extract"⟩,
      ⟨some "dengue", some "Papaya leaf extract"⟩, ⟨some "dengue", some "Giloy juice"⟩]⟩
    "dengue" rfl rfl (by decide)).1

/-- Every outcome of the post-validation remedy lookup is a structured
`disease` + `remedies` body with a non-400 status. -/
theorem remedyCore_structured (tbl : RemedyTable) (di : String) :
    (remedyCore tbl di).body.hasDiseaseAndRemedies = true
    ∧ ((remedyCore tbl di).status = 200 ∨ (remedyCore tbl di).status = 500) := by
  simp only [remedyCore]
  split
  · exact ⟨rfl, Or.inr rfl⟩
  · split
    · split
      · exact ⟨rfl, Or.inr rfl⟩
      · split
        · exact ⟨rfl, Or.inl rfl⟩
        · exact ⟨rfl, Or.inl rfl⟩
    · exact ⟨rfl, Or.inl rfl⟩

/-- Data for the counterexample to claim C5: any loaded remedy table. -/
def c5Table : RemedyTable := ⟨true, true, [⟨some "dengue", some "Giloy juice"⟩]⟩

/-- Claim C5 is false as stated: the 400 client-error responses of the remedy
endpoint carry only an error message, not a disease name and remedies list.
A POST with an empty disease parameter is such a response. -/
theorem c5_counterexample :
    get_remedy c5Table (.post (some [("disease", "   ")]))
      = ⟨.errorBody "Disease parameter is required.", 400⟩
    ∧ (RemedyBody.errorBody "Disease parameter is required.").hasDiseaseAndRemedies
        = false := by
  refine ⟨by decide, rfl⟩

/-- Claim C5 (amended): a remedy response carries the disease name and a list
of remedy strings exactly when its status is not 400; every 200 and 500
outcome is structured that way, while the 400 client errors carry only an
error message. -/
theorem c5_amended (tbl : RemedyTable) (req : RemedyRequest) :
    (get_remedy tbl req).body.hasDiseaseAndRemedies
      = ((get_remedy tbl req).status != 400) := by
  have core : ∀ di : String,
      (remedyCore tbl di).body.hasDiseaseAndRemedies
        = ((remedyCore tbl di).status != 400) := by
    intro di
    obtain ⟨h1, h2⟩ := remedyCore_structured tbl di
    rw [h1]
    have h3 : (remedyCore tbl di).status ≠ 400 := by
      rcases h2 with h2 | h2 <;> rw [h2] <;> decide
    exact (bne_iff_ne.mpr h3).symm
  cases req with
  | post c =>
    cases c with
    | none => rfl
    | some d =>
      simp only [get_remedy]
      split
      · rfl
      · split
        · rfl
        · exact core _
  | get args =>
    simp only [get_remedy]
    split
    · rfl
    · exact core _

/-- Data for the counterexample to claim C6: a matching row whose remedy text
is blank (a single space) but not null. -/
def c6Table : RemedyTable := ⟨true, true, [⟨some "dengue", some " "⟩]⟩

/-- Claim C6 is false as stated: when every matching row's remedy text is
blank but non-null, the handler returns the blank texts themselves, not the
placeholder message. -/
theorem c6_counterexample :
    pyStrip " " = ""
    ∧ get_remedy c6Table (.get [("disease", "dengue")])
        = ⟨.remedyBody "Dengue" [" "], 200⟩
    ∧ ([" "] : List String)
        ≠ ["⚠️ No specific remedies listed for this disease, although it was found."] := by
  refine ⟨by decide, by decide, by decide⟩

/-- Claim C6 (amended): when at least one row matches and every matching
row's remedy text is null, the handler returns the structured placeholder
message; blank non-null remedy texts do not trigger the placeholder and are
returned verbatim. -/
theorem c6_amended (tbl : RemedyTable) (di : String)
    (hD : tbl.hasDiseaseCol = true) (hR : tbl.hasRemedyCol = true)
    (hm : matchedRows tbl di ≠ [])
    (hall : ∀ r ∈ matchedRows tbl di, r.remedy = none) :
    remedyCore tbl di
      = ⟨.remedyBody (pyTitle di)
          ["⚠️ No specific remedies listed for this disease, although it was found."], 200⟩ := by
  have ht : remedyTexts tbl di = [] := List.filterMap_eq_nil_iff.mpr hall
  simp [remedyCore, hD, hR, hm, ht, pdUnique, pdUniqueGo]

/-- Witness for `c6_amended`: one matching row with a null remedy text. -/
theorem c6_amended_witness :
    remedyCore ⟨true, true, [⟨some "dengue", none⟩]⟩ "dengue"
      = ⟨.remedyBody (pyTitle "dengue")
          ["⚠️ No specific remedies listed for this disease, although it was found."], 200⟩ :=
  c6_amended ⟨true, true, [⟨some "dengue", none⟩]⟩ "dengue" rfl rfl
    (by decide) (by decide)

/-- Claim C7 is false as stated: a POST to the outbreak endpoint whose JSON
body is the empty object has both required parameters missing, yet the 400
message is the no-JSON-data message, which names neither "state" nor
"district". -/
theorem c7_counterexample :
    check_outbreak [] (some []) = ⟨"Error: No JSON data received.", 400⟩
    ∧ dictGet [] "state" = ""
    ∧ dictGet [] "district" = ""
    ∧ ¬ (String.data "state" <:+: String.data "Error: No JSON data received.")
    ∧ ¬ (String.data "district" <:+: String.data "Error: No JSON data received.") := by
  refine ⟨by decide, by decide, by decide, by decide, by decide⟩

/-- Claim C7 (amended): whenever a required parameter is missing, empty, or
whitespace-only after normalization — except for a POST whose JSON body is
absent or the empty object, which yields a 400 with the no-JSON-data message
instead — the handler returns a 400 whose message names the required
parameter(s), regardless of the input's casing or surrounding whitespace. -/
theorem c7_amended :
    (∀ (tbl : List OutbreakRecord) (c : List (String × String)), c ≠ [] →
      (pyLower (pyStrip (dictGet c "state")) = ""
        ∨ pyLower (pyStrip (dictGet c "district")) = "") →
      check_outbreak tbl (some c)
        = ⟨"Error: Both \x27state\x27 and \x27district\x27 are required.", 400⟩)
    ∧ (∀ (tbl : List OutbreakRecord) (args : List (String × String)),
      (pyLower (pyStrip (dictGet args "state")) = ""
        ∨ pyLower (pyStrip (dictGet args "district")) = "") →
      test_check tbl args
        = ⟨"Error: Both \x27state\x27 and \x27district\x27 query parameters are required.", 400⟩)
    ∧ (∀ (tbl : RemedyTable) (c : List (String × String)), c ≠ [] →
      pyLower (pyStrip (dictGet c "disease")) = "" →
      get_remedy tbl (.post (some c))
        = ⟨.errorBody "Disease parameter is required.", 400⟩)
    ∧ (∀ (tbl : RemedyTable) (args : List (String × String)),
      pyLower (pyStrip (dictGet args "disease")) = "" →
      get_remedy tbl (.get args)
        = ⟨.errorBody "Disease parameter is required.", 400⟩) := by
  refine ⟨?_, ?_, ?_, ?_⟩
  · intro tbl c hc h
    have hc' : c.isEmpty = false := List.isEmpty_eq_false.mpr hc
    rcases h with h | h <;> simp [check_outbreak, hc', h]
  · intro tbl args h
    rcases h with h | h <;> simp [test_check, h]
  · intro tbl c hc h
    have hc' : c.isEmpty = false := List.isEmpty_eq_false.mpr hc
    simp [get_remedy, hc', h]
  · intro tbl args h
    simp [get_remedy, h]

/-- Witness for `c7_amended`: a whitespace-only state parameter. -/
theorem c7_amended_witness :
    check_outbreak [] (some [("state", "  "), ("district", "X")])
      = ⟨"Error: Both \x27state\x27 and \x27district\x27 are required.", 400⟩ :=
  c7_amended.1 [] [("state", "  "), ("district", "X")] (by decide) (Or.inl (by decide))

/-- Witness for `c10_null_key_rows_excluded` at a concrete null-keyed row. -/
theorem c10_witness :
    rowMatchesOutbreak ⟨none, some "wayanad", some "dengue", none, none⟩
        "kerala" "wayanad" = false
    ∧ rowMatchesRemedy ⟨none, some "r"⟩ "dengue" = false :=
  ⟨c10_null_key_rows_excluded.1 _ "kerala" "wayanad" (Or.inl rfl),
   c10_null_key_rows_excluded.2.1 _ "dengue" rfl (by decide)⟩
